import Mathlib

/-!
Verification of the lease-financial-derivation and data-quality-gating core
of the lease-intelligence service (`src/app/main.py`).

The development shallowly embeds the relevant Python functions:

* `parse_field` (main.py lines 219-247), the field-coercion routine, over a
  model `PyVal` of the Python/JSON values it can receive;
* `compute_layer2` (main.py lines 325-387), the derived-metrics engine, over a
  record `Layer1` of the typed fields it consults;
* `run_quality_gate` (main.py lines 1008-1022), the quality gate.

Modelling conventions, stated once here:

* Python `Decimal` and `float` values are both modelled as `ℚ`.  All the
  claims under study depend only on exact values of small decimal numbers,
  where binary-float rounding and the 28-digit `Decimal` context are
  unobservable; comments mark each spot where this identification is used.
* Python `date` objects are modelled by `CalDate` (proleptic Gregorian
  year/month/day); `date` subtraction is day-number subtraction via
  `CalDate.toDays`, the standard civil-from-days correspondence.
* A Python function that can raise is modelled with an `Option` result,
  `none` standing for the raised exception.
* `compute_layer2` begins with `today = date.today()` (main.py line 326), a
  hard read of the system clock.  The embedding makes that dependence
  explicit: the `today` parameter of the Lean `compute_layer2` stands for
  the value `date.today()` returned at the moment of the call.
-/

namespace LeaseIntel

/-! ## Calendar dates -/

/-- A proleptic Gregorian calendar date, as Python's `datetime.date`. -/
structure CalDate where
  year  : Int
  month : Int
  day   : Int
deriving DecidableEq

/-- Day number of a civil date (days since 1970-01-01), the standard
civil-from-days correspondence.  Python's `date` subtraction returns exactly
the difference of these day numbers. -/
def CalDate.toDays (d : CalDate) : Int :=
  let y := d.year - (if d.month ≤ 2 then 1 else 0)
  let era := Int.fdiv y 400
  let yoe := y - era * 400
  let mp := (d.month + 9) % 12
  let doy := (153 * mp + 2) / 5 + d.day - 1
  let doe := yoe * 365 + yoe / 4 - yoe / 100 + doy
  era * 146097 + doe - 719468

/-- The floor of a rational, computed directly (kernel-reducible). -/
def ratFloor (q : ℚ) : ℤ := q.num.fdiv q.den

/-- Python 3 `round` on an exact value: round to the nearest integer, ties to
even. -/
def pyRound (q : ℚ) : ℤ :=
  let f := ratFloor q
  let frac := q - (f : ℚ)
  if frac < 1/2 then f
  else if 1/2 < frac then f + 1
  else if f % 2 = 0 then f else f + 1

/-- Python `int()` applied to a numeric value: truncation toward zero. -/
def ratTrunc (q : ℚ) : ℤ := q.num.tdiv q.den

/-! ## Layer 1: the typed field record

`Layer1` holds the typed fields that `compute_layer2` and `run_quality_gate`
consult (`FIELD_MAP` gives their declared types: `Decimal` fields and `float`
fields are `ℚ` here, `int` fields `ℤ`, `date` fields `CalDate`).  A value
`none` is Python `None`.  Fields of the schema not consulted by either
function are omitted from the record. -/

structure Layer1 where
  property_address             : Option String  := none
  monthly_rent                 : Option ℚ       := none
  security_deposit             : Option ℚ       := none
  last_month_deposit           : Option ℚ       := none
  pet_deposit                  : Option ℚ       := none
  other_fees_monthly           : Option ℚ       := none
  number_of_tenants            : Option ℤ       := none
  lease_start_date             : Option CalDate := none
  lease_end_date               : Option CalDate := none
  renewal_notice_days_required : Option ℤ       := none
  renewal_deadline_explicit    : Option CalDate := none
  square_footage               : Option ℚ       := none
  late_fee_initial_amount      : Option ℚ       := none
  late_fee_initial_pct         : Option ℚ       := none
  holdover_rent_amount         : Option ℚ       := none

/-- Python `x or d` for an optional numeric `x`: `None` and `0` are falsy and
give the default. -/
def pyOrQ (x : Option ℚ) (d : ℚ) : ℚ :=
  match x with
  | some q => if q = 0 then d else q
  | none   => d

/-- Python `x or d` for an optional integer. -/
def pyOrZ (x : Option ℤ) (d : ℤ) : ℤ :=
  match x with
  | some n => if n = 0 then d else n
  | none   => d

/-- Truthiness of an optional numeric field (`None` and `0` are falsy). -/
def truthyQ (x : Option ℚ) : Bool :=
  match x with
  | some q => if q = 0 then false else true
  | none   => false

/-! ## Layer 2: the derived metrics

One Lean field per possible key of the `l2` dict built by `compute_layer2`;
`none` means the key is absent from the dict.  The first three keys are
assigned unconditionally, so they are not optional.
`renewal_deadline_date` holds a `date` object in the source; the embedding
stores its day number (`CalDate.toDays` image), which is all later arithmetic
uses. -/

structure Layer2 where
  effective_monthly_cost       : ℚ
  total_upfront_cost           : ℚ
  annualized_rent              : ℚ
  rent_per_tenant              : Option ℚ
  deposit_per_tenant           : Option ℚ
  upfront_per_tenant           : Option ℚ
  lease_term_days              : Option ℤ
  lease_term_months            : Option ℤ
  total_liability_term         : Option ℚ
  days_until_lease_end         : Option ℤ
  renewal_deadline_date        : Option ℤ
  days_until_renewal_deadline  : Option ℤ
  implied_cost_per_sqft_monthly : Option ℚ
  deposit_as_months_rent       : Option ℚ
  late_fee_as_pct_rent         : Option ℚ
  late_fee_dollar_equivalent   : Option ℚ
  holdover_rent_increase       : Option ℚ
  holdover_rent_increase_pct   : Option ℚ

/-- The derived-metrics engine, `compute_layer2` (main.py lines 325-387).

`today` stands for the value of `date.today()` read by the source at line
326 (a hard system-clock read; see the module docstring).  Each conditional
dict assignment of the source becomes a guard on the corresponding field;
a guard repeated from the source (such as the lease-date pattern match) is
restated per field that the source's `if`-block assigns.

Modelling notes: `delta.days / 30.44` (a binary-float division) is modelled
as exact rational division; `float(x)/float(y)` as exact rational division;
`rent * Decimal(str(late_pct / 100))` as `rent * (late_pct / 100)` — each
exact where the source rounds to float precision, which none of the claims
observe. -/
def compute_layer2 (l1 : Layer1) (today : CalDate) : Layer2 :=
  let rent := pyOrQ l1.monthly_rent 0
  let sec  := pyOrQ l1.security_deposit 0
  let last := pyOrQ l1.last_month_deposit 0
  let pet  := pyOrQ l1.pet_deposit 0
  let fees := pyOrQ l1.other_fees_monthly 0
  let num_tenants := pyOrZ l1.number_of_tenants 1
  let effective_monthly_cost := rent + fees
  let total_upfront_cost := rent + sec + last + pet
  { effective_monthly_cost := effective_monthly_cost
    total_upfront_cost := total_upfront_cost
    annualized_rent := rent * 12
    rent_per_tenant :=
      if 1 < num_tenants ∧ 0 < rent then some (rent / (num_tenants : ℚ)) else none
    deposit_per_tenant :=
      if 1 < num_tenants ∧ 0 < rent then some (sec / (num_tenants : ℚ)) else none
    upfront_per_tenant :=
      if 1 < num_tenants ∧ 0 < rent then some (total_upfront_cost / (num_tenants : ℚ)) else none
    lease_term_days :=
      match l1.lease_start_date, l1.lease_end_date with
      | some s, some e => some (e.toDays - s.toDays)
      | _, _ => none
    lease_term_months :=
      match l1.lease_start_date, l1.lease_end_date with
      | some s, some e => some (pyRound (((e.toDays - s.toDays : ℤ) : ℚ) / 30.44))
      | _, _ => none
    total_liability_term :=
      match l1.lease_start_date, l1.lease_end_date with
      | some s, some e =>
        if 0 < rent then
          some (rent * ((pyRound (((e.toDays - s.toDays : ℤ) : ℚ) / 30.44) : ℤ) : ℚ))
        else none
      | _, _ => none
    days_until_lease_end :=
      match l1.lease_start_date, l1.lease_end_date with
      | some _, some e => some (e.toDays - today.toDays)
      | _, _ => none
    renewal_deadline_date :=
      match l1.lease_start_date, l1.lease_end_date with
      | some _, some e =>
        match l1.renewal_deadline_explicit with
        | some dl => some dl.toDays
        | none =>
          match l1.renewal_notice_days_required with
          | some n => if n = 0 then none else some (e.toDays - n)
          | none   => none
      | _, _ => none
    days_until_renewal_deadline :=
      match l1.lease_start_date, l1.lease_end_date with
      | some _, some e =>
        match l1.renewal_deadline_explicit with
        | some dl => some (dl.toDays - today.toDays)
        | none =>
          match l1.renewal_notice_days_required with
          | some n => if n = 0 then none else some (e.toDays - n - today.toDays)
          | none   => none
      | _, _ => none
    implied_cost_per_sqft_monthly :=
      match l1.square_footage with
      | some sqft =>
        if sqft ≠ 0 ∧ 0 < sqft ∧ 0 < effective_monthly_cost
        then some (effective_monthly_cost / sqft) else none
      | none => none
    deposit_as_months_rent :=
      if 0 < sec ∧ 0 < rent then some (sec / rent) else none
    late_fee_as_pct_rent :=
      if truthyQ l1.late_fee_initial_amount ∧ 0 < rent then
        some ((l1.late_fee_initial_amount.getD 0) / rent)
      else if truthyQ l1.late_fee_initial_pct then
        some ((l1.late_fee_initial_pct.getD 0) / 100)
      else none
    late_fee_dollar_equivalent :=
      if truthyQ l1.late_fee_initial_amount ∧ 0 < rent then none
      else if truthyQ l1.late_fee_initial_pct ∧ 0 < rent then
        some (rent * ((l1.late_fee_initial_pct.getD 0) / 100))
      else none
    holdover_rent_increase :=
      if truthyQ l1.holdover_rent_amount ∧ 0 < rent then
        some ((l1.holdover_rent_amount.getD 0) - rent)
      else none
    holdover_rent_increase_pct :=
      if truthyQ l1.holdover_rent_amount ∧ 0 < rent then
        some (((l1.holdover_rent_amount.getD 0) - rent) / rent)
      else none }

/-! ## The Python value model for `parse_field`

`parse_field` receives arbitrary JSON-decoded Python values (from
`json.loads` of the extraction response), so its embedding works over a model
of those values.  `date` and `decimal` constructors cover the objects the
coercions construct. -/

inductive PyVal where
  | none   : PyVal
  | bool   : Bool → PyVal
  | int    : ℤ → PyVal
  | float  : ℚ → PyVal
  | str    : String → PyVal
  | list   : List PyVal → PyVal
  | dict   : List (String × PyVal) → PyVal
  | date   : CalDate → PyVal
  | decimal : ℚ → PyVal

/-- Python truthiness, `bool(v)`. -/
def pyTruthy (v : PyVal) : Bool :=
  match v with
  | .none      => false
  | .bool b    => b
  | .int n     => if n = 0 then false else true
  | .float q   => if q = 0 then false else true
  | .str s     => if s = "" then false else true
  | .list xs   => if xs.isEmpty then false else true
  | .dict xs   => if xs.isEmpty then false else true
  | .date _    => true
  | .decimal q => if q = 0 then false else true

/-- Zero-padded rendering of a nonnegative component of an ISO date. -/
def padNat (width n : ℕ) : String :=
  let s := toString n
  if s.length < width then String.mk (List.replicate (width - s.length) '0') ++ s else s

/-- Rendering `date.isoformat()`, the `str()` of a Python `date`. -/
def CalDate.isoformat (d : CalDate) : String :=
  padNat 4 d.year.toNat ++ "-" ++ padNat 2 d.month.toNat ++ "-" ++ padNat 2 d.day.toNat

/-- Rendering of a rational standing for a `float` or `Decimal`.  Python
prints floats via shortest-roundtrip repr and `Decimal` with its stored
exponent; the claims never inspect these strings beyond their failure to
parse, so an integer is printed plainly and anything else as a fraction
(which, like the real renderings of such values, reparses or fails exactly
where the claims need it not to matter). -/
def ratStr (q : ℚ) : String :=
  if q.den = 1 then toString q.num else toString q.num ++ "/" ++ toString q.den

/-- Python `str(v)`.  Containers are rendered as a bracketed placeholder:
the source only ever feeds `str()` of a container to a numeric or date parse,
which fails on any bracketed rendering exactly as it does on Python's. -/
def pyStr (v : PyVal) : String :=
  match v with
  | .none      => "None"
  | .bool true  => "True"
  | .bool false => "False"
  | .int n     => toString n
  | .float q   => ratStr q
  | .str s     => s
  | .list _    => "[...]"
  | .dict _    => "{...}"
  | .date d    => d.isoformat
  | .decimal q => ratStr q

/-- Strip leading and trailing whitespace from a character list (the
character-level form of Python's `str.strip()` / the whitespace tolerance of
`float()` and `Decimal()`). -/
def trimChars (cs : List Char) : List Char :=
  ((cs.dropWhile Char.isWhitespace).reverse.dropWhile Char.isWhitespace).reverse

/-- All characters are decimal digits. -/
def allDigits (cs : List Char) : Bool := cs.all (fun c => c.isDigit)

/-- The natural number denoted by a digit string. -/
def digitsVal (cs : List Char) : ℕ :=
  cs.foldl (fun acc c => acc * 10 + (c.toNat - 48)) 0

/-- Parse an unsigned decimal mantissa (`D+`, `D+.D*`, or `D*.D+`) into its
digit value and its count of fraction digits. -/
def parseMantissa (cs : List Char) : Option (ℕ × ℕ) :=
  match cs.splitOn '.' with
  | [a] =>
    if a ≠ [] ∧ allDigits a then some (digitsVal a, 0) else Option.none
  | [a, b] =>
    if (a ≠ [] ∨ b ≠ []) ∧ allDigits a ∧ allDigits b then
      some (digitsVal (a ++ b), b.length)
    else Option.none
  | _ => Option.none

/-- Parse an optionally signed decimal numeral (no exponent) into a signed
digit value and fraction-digit count. -/
def parseSignedMantissa (cs : List Char) : Option (ℤ × ℕ) :=
  match cs with
  | '+' :: rest => (parseMantissa rest).map (fun mf => ((mf.1 : ℤ), mf.2))
  | '-' :: rest => (parseMantissa rest).map (fun mf => (-(mf.1 : ℤ), mf.2))
  | _           => (parseMantissa cs).map (fun mf => ((mf.1 : ℤ), mf.2))

/-- Parse an optionally signed digit string as an integer exponent. -/
def parseExponent (cs : List Char) : Option ℤ :=
  match cs with
  | '+' :: ds => if ds ≠ [] ∧ allDigits ds then some (digitsVal ds) else Option.none
  | '-' :: ds => if ds ≠ [] ∧ allDigits ds then some (-(digitsVal ds : ℤ)) else Option.none
  | ds        => if ds ≠ [] ∧ allDigits ds then some (digitsVal ds) else Option.none

/-- The numeric strings accepted by Python's `float()` and `Decimal()`:
an optionally signed decimal numeral with an optional exponent part, built
into an exact rational.  (`inf`, `nan` and underscore separators are
accepted by Python but not modelled; no claim concerns them.) -/
def parseNumeric (cs : List Char) : Option ℚ :=
  let cs := cs.map (fun c => if c = 'E' then 'e' else c)
  match cs.splitOn 'e' with
  | [m] =>
    match parseSignedMantissa m with
    | some (n, f) => some (mkRat n (10 ^ f))
    | Option.none => Option.none
  | [m, ex] =>
    match parseSignedMantissa m, parseExponent ex with
    | some (n, f), some e =>
      if 0 ≤ e - (f : ℤ) then some (mkRat (n * ((10 ^ (e - (f : ℤ)).toNat : ℕ) : ℤ)) 1)
      else some (mkRat n (10 ^ ((f : ℤ) - e).toNat))
    | _, _ => Option.none
  | _ => Option.none

/-- Leap years of the proleptic Gregorian calendar. -/
def isLeapYear (y : ℕ) : Bool :=
  y % 4 = 0 ∧ (y % 100 ≠ 0 ∨ y % 400 = 0)

/-- Days in a month. -/
def daysInMonth (y m : ℕ) : ℕ :=
  if m = 2 then (if isLeapYear y then 29 else 28)
  else if m = 4 ∨ m = 6 ∨ m = 9 ∨ m = 11 then 30
  else 31

/-- Parsing of `date.fromisoformat`: exactly `YYYY-MM-DD` with zero padding, denoting a
valid date of years 1-9999 (Python's `MINYEAR`-`MAXYEAR`). -/
def parseISODate (s : String) : Option CalDate :=
  match s.data.splitOn '-' with
  | [a, b, c] =>
    if a.length = 4 ∧ b.length = 2 ∧ c.length = 2 ∧ allDigits a ∧ allDigits b ∧ allDigits c then
      let y := digitsVal a
      let m := digitsVal b
      let d := digitsVal c
      if 1 ≤ y ∧ y ≤ 9999 ∧ 1 ≤ m ∧ m ≤ 12 ∧ 1 ≤ d ∧ d ≤ daysInMonth y m then
        some ⟨(y : ℤ), (m : ℤ), (d : ℤ)⟩
      else Option.none
    else Option.none
  | _ => Option.none

/-- Python `float(v)` on a value: `none` models the raised `TypeError` /
`ValueError` when `v` is not a number or a numeric string. -/
def pyFloat (v : PyVal) : Option ℚ :=
  match v with
  | .float q   => some q
  | .decimal q => some q
  | .int n     => some (n : ℚ)
  | .bool b    => some (if b then 1 else 0)
  | .str s     => parseNumeric (trimChars s.data)
  | _          => Option.none

/-- The declared field types of `FIELD_MAP` (main.py lines 259-310). -/
inductive FieldType where
  | str | decimal | int | float | date | bool | list
deriving DecidableEq

/-- Whether a value is Python `None` (the `value is None` test). -/
def PyVal.isNone (v : PyVal) : Bool :=
  match v with
  | .none => true
  | _     => false

/-- The per-type coercion applied by `parse_field` to a non-`None` value
(main.py lines 228-246).  Each `try`/`except` that degrades a parse failure
to `None` becomes a `match` whose failure arm is `PyVal.none`. -/
def coerceValue (field_type : FieldType) (value : PyVal) : PyVal :=
  match field_type with
  | .decimal =>
    -- Decimal(str(value).replace(",","").replace("$","").strip())
    match parseNumeric (trimChars
        (((pyStr value).data.filter (fun c => c != ',')).filter (fun c => c != '$'))) with
    | some q => .decimal q
    | Option.none => .none
  | .int =>
    -- int(float(str(value)))
    match parseNumeric (trimChars (pyStr value).data) with
    | some q => .int (ratTrunc q)
    | Option.none => .none
  | .float =>
    -- float(str(value))
    match parseNumeric (trimChars (pyStr value).data) with
    | some q => .float q
    | Option.none => .none
  | .date =>
    -- date.fromisoformat(str(value))
    match parseISODate (pyStr value) with
    | some d => .date d
    | Option.none => .none
  | .bool =>
    match value with
    | .bool b => .bool b
    | .str s  =>
      -- value.lower() in ("true", "yes", "1")
      .bool (s.data.map Char.toLower == "true".data
          || s.data.map Char.toLower == "yes".data
          || s.data.map Char.toLower == "1".data)
    | v       => .bool (pyTruthy v)
  | .list =>
    match value with
    | .list xs => .list xs
    | v =>
      -- [piece.strip() for piece in str(value).split(",") if piece.strip()]
      .list (((((pyStr v).data.splitOn ',').map trimChars).filter
        (fun piece => piece != [])).map (fun piece => PyVal.str (String.mk piece)))
  | .str => value

/-- The field-coercion routine `parse_field` (main.py lines 219-247).

The result is `none` when the Python call raises (which happens exactly when
`float()` is applied to a malformed `confidence` entry, the one sub-expression
of the source not wrapped in a `try`), and `some (value, confidence, flag)`
for a normal return. -/
def parse_field (raw_field : PyVal) (field_type : FieldType) : Option (PyVal × ℚ × Bool) :=
  match raw_field with
  | .dict entries =>
    let value := (List.lookup "value" entries).getD PyVal.none
    match pyFloat ((List.lookup "confidence" entries).getD (PyVal.float 0)) with
    | Option.none => Option.none
    | some confidence =>
      let flag := pyTruthy ((List.lookup "flag_for_reasoning" entries).getD (PyVal.bool false))
      if value.isNone then some (PyVal.none, confidence, flag)
      else some (coerceValue field_type value, confidence, flag)
  | _ => some (raw_field, 1/2, false)

/-! ## The quality gate -/

/-- The threshold `CONFIDENCE_THRESHOLD` (main.py line 1005), modelled at its default
`0.70`; the `os.getenv` override is deployment configuration, not data
flow. -/
def CONFIDENCE_THRESHOLD : ℚ := 0.70

/-- The set `CRITICAL_FIELDS` (main.py line 1006).  The source holds these in a
Python `set`, whose iteration order is implementation-defined; the embedding
fixes the written order.  No claim under study depends on the order, only on
membership. -/
def CRITICAL_FIELDS : List String :=
  ["monthly_rent", "lease_start_date", "lease_end_date", "property_address"]

/-- Truthiness of `layer1.get(f)` for a critical field `f`: `None` is falsy,
a zero rent is falsy, an empty address string is falsy, a date is truthy. -/
def criticalTruthy (l1 : Layer1) (f : String) : Bool :=
  if f = "monthly_rent" then truthyQ l1.monthly_rent
  else if f = "lease_start_date" then l1.lease_start_date.isSome
  else if f = "lease_end_date" then l1.lease_end_date.isSome
  else if f = "property_address" then
    (match l1.property_address with
     | some s => if s = "" then false else true
     | none => false)
  else false

/-- The quality gate `run_quality_gate` (main.py lines 1008-1022), returning
`(requires_review, reasons)`.  The imperative accumulation of the source
becomes shadowing `let`-rebindings in check order.  `reasoning_flags` is a
parameter of the source that the body never reads. -/
def run_quality_gate (layer1 : Layer1) (confidence_scores : List (String × ℚ))
    (reasoning_flags : List String) : Bool × List String :=
  let requires_review := false
  let reasons : List String := []
  let missing := CRITICAL_FIELDS.filter (fun f => !(criticalTruthy layer1 f))
  let (requires_review, reasons) :=
    if missing.isEmpty then (requires_review, reasons)
    else (true, reasons ++ ["Missing critical fields: " ++ String.intercalate ", " missing])
  let low_conf :=
    (confidence_scores.filter
      (fun fv => decide (fv.1 ∈ CRITICAL_FIELDS) && decide (fv.2 < CONFIDENCE_THRESHOLD))).map
      (fun fv => fv.1)
  let (requires_review, reasons) :=
    if low_conf.isEmpty then (requires_review, reasons)
    else (true,
      reasons ++ ["Low confidence on critical fields: " ++ String.intercalate ", " low_conf])
  let rent := layer1.monthly_rent
  let (requires_review, reasons) :=
    match rent with
    | some r =>
      if (if r = 0 then false else true) ∧ (r < 50 ∨ 100000 < r) then
        (true, reasons ++ ["Unusual rent amount: $" ++ ratStr r])
      else (requires_review, reasons)
    | none => (requires_review, reasons)
  (requires_review, reasons)

/-! ### The three checks, stated independently

The spec describes the gate as three independently evaluated checks whose
reasons accumulate in check order.  The following three definitions follow
that description (one reason list per check, each a function of only the
inputs its check reads); the claim `C3` theorem proves the gate's reason list
is exactly their concatenation. -/

/-- Check 1 of the spec: the missing-critical-fields reason list. -/
def check_missing_reasons (l1 : Layer1) : List String :=
  let missing := CRITICAL_FIELDS.filter (fun f => !(criticalTruthy l1 f))
  if missing.isEmpty then []
  else ["Missing critical fields: " ++ String.intercalate ", " missing]

/-- Check 2 of the spec: the low-confidence reason list. -/
def check_low_conf_reasons (confidence_scores : List (String × ℚ)) : List String :=
  let low_conf :=
    (confidence_scores.filter
      (fun fv => decide (fv.1 ∈ CRITICAL_FIELDS) && decide (fv.2 < CONFIDENCE_THRESHOLD))).map
      (fun fv => fv.1)
  if low_conf.isEmpty then []
  else ["Low confidence on critical fields: " ++ String.intercalate ", " low_conf]

/-- Check 3 of the spec: the implausible-rent reason list. -/
def check_rent_reasons (l1 : Layer1) : List String :=
  match l1.monthly_rent with
  | some r =>
    if (if r = 0 then false else true) ∧ (r < 50 ∨ 100000 < r) then
      ["Unusual rent amount: $" ++ ratStr r]
    else []
  | none => []

/-- Classifier for reasons of check 1: the reason begins with
`Missing critical fields`. -/
def isMissingReason (s : String) : Bool :=
  decide ("Missing critical fields".data <+: s.data)

/-- Classifier for reasons of check 3: the reason begins with
`Unusual rent amount`. -/
def isUnusualRentReason (s : String) : Bool :=
  decide ("Unusual rent amount".data <+: s.data)

/-! ## Helper lemmas -/

lemma ratFloor_eq_floor (q : ℚ) : ratFloor q = ⌊q⌋ := by
  rw [ratFloor, Rat.floor_def]
  exact Int.fdiv_eq_ediv _ (Int.ofNat_nonneg _)

/-- Evaluation of `pyRound` at a value whose fractional part exceeds one half: round up. -/
lemma pyRound_eq_next (q : ℚ) (n : ℤ) (h1 : (n : ℚ) ≤ q) (h2 : q < n + 1)
    (h3 : 1/2 < q - n) : pyRound q = n + 1 := by
  have hf : ratFloor q = n := by
    rw [ratFloor_eq_floor, Int.floor_eq_iff]
    exact ⟨h1, h2⟩
  simp only [pyRound]
  rw [hf, if_neg (not_lt.mpr (le_of_lt h3)), if_pos h3]

/-- A list that starts a second list also starts that list extended. -/
lemma leadsWith_append {p q : List Char} (t : List Char) (h : p <+: q) :
    p <+: (q ++ t) := by
  obtain ⟨r, hr⟩ := h
  exact ⟨r ++ t, by rw [← hr, List.append_assoc]⟩

/-- Lists with different heads: the first does not start the second, however
the second is extended. -/
lemma not_leadsWith_of_head {a b : Char} (p q t : List Char) (hab : a ≠ b) :
    ¬ (a :: p) <+: ((b :: q) ++ t) := by
  rintro ⟨r, hr⟩
  rw [List.cons_append, List.cons_append] at hr
  injection hr with h1 _
  exact hab h1

lemma isMissingReason_missing (x : String) :
    isMissingReason ("Missing critical fields: " ++ x) = true := by
  apply decide_eq_true
  rw [String.data_append]
  exact leadsWith_append _ ⟨": ".data, rfl⟩

lemma isMissingReason_low (x : String) :
    isMissingReason ("Low confidence on critical fields: " ++ x) = false := by
  apply decide_eq_false
  rw [String.data_append]
  have h : ("Low confidence on critical fields: ").data
      = 'L' :: "ow confidence on critical fields: ".data := rfl
  rw [h]
  exact not_leadsWith_of_head _ _ _ (by decide)

lemma isMissingReason_unusual (x : String) :
    isMissingReason ("Unusual rent amount: $" ++ x) = false := by
  apply decide_eq_false
  rw [String.data_append]
  have h : ("Unusual rent amount: $").data = 'U' :: "nusual rent amount: $".data := rfl
  rw [h]
  exact not_leadsWith_of_head _ _ _ (by decide)

lemma isUnusualRentReason_missing (x : String) :
    isUnusualRentReason ("Missing critical fields: " ++ x) = false := by
  apply decide_eq_false
  rw [String.data_append]
  have h : ("Missing critical fields: ").data = 'M' :: "issing critical fields: ".data := rfl
  rw [h]
  exact not_leadsWith_of_head _ _ _ (by decide)

lemma isUnusualRentReason_low (x : String) :
    isUnusualRentReason ("Low confidence on critical fields: " ++ x) = false := by
  apply decide_eq_false
  rw [String.data_append]
  have h : ("Low confidence on critical fields: ").data
      = 'L' :: "ow confidence on critical fields: ".data := rfl
  rw [h]
  exact not_leadsWith_of_head _ _ _ (by decide)

/-- The gate's reason list is exactly the concatenation, in check order, of
the three independent checks' reason lists. -/
lemma gate_reasons_eq (l1 : Layer1) (conf : List (String × ℚ)) (flags : List String) :
    (run_quality_gate l1 conf flags).2 =
      check_missing_reasons l1 ++ check_low_conf_reasons conf ++ check_rent_reasons l1 := by
  simp only [run_quality_gate, check_missing_reasons, check_low_conf_reasons, check_rent_reasons]
  repeat' split
  all_goals simp_all

/-- The gate's flag is set exactly when some check contributed a reason. -/
lemma gate_review_eq (l1 : Layer1) (conf : List (String × ℚ)) (flags : List String) :
    (run_quality_gate l1 conf flags).1 =
      !((check_missing_reasons l1 ++ check_low_conf_reasons conf ++ check_rent_reasons l1).isEmpty) := by
  simp only [run_quality_gate, check_missing_reasons, check_low_conf_reasons, check_rent_reasons]
  repeat' split
  all_goals simp_all

/-! ## Claim C1 -/

/-- A record with both lease dates set, used to exhibit the clock dependence
of `compute_layer2`. -/
def clockL1 : Layer1 :=
  { lease_start_date := some ⟨2025, 6, 8⟩
    lease_end_date := some ⟨2026, 5, 30⟩ }

/-- Claim C1, counterexample: `compute_layer2` is not a function of its
`TypedFieldRecord` input alone.  `today = date.today()` (main.py line 326) is
a hard read of the system clock, and the output changes with it: on the same
record, a call made 2025-12-30 and a call made 2025-12-31 return different
`days_until_lease_end` values. -/
theorem compute_layer2_depends_on_clock :
    (compute_layer2 clockL1 ⟨2025, 12, 30⟩).days_until_lease_end = some 151 ∧
    (compute_layer2 clockL1 ⟨2025, 12, 31⟩).days_until_lease_end = some 150 ∧
    compute_layer2 clockL1 ⟨2025, 12, 30⟩ ≠ compute_layer2 clockL1 ⟨2025, 12, 31⟩ := by
  have ha : (compute_layer2 clockL1 ⟨2025, 12, 30⟩).days_until_lease_end = some 151 := by decide
  have hb : (compute_layer2 clockL1 ⟨2025, 12, 31⟩).days_until_lease_end = some 150 := by decide
  refine ⟨ha, hb, fun h => ?_⟩
  have h2 := congrArg Layer2.days_until_lease_end h
  rw [ha, hb] at h2
  exact absurd h2 (by decide)

/-- Claim C1, amended: `compute_layer2` is a pure, deterministic function of
the `TypedFieldRecord` together with the clock date it reads; every output
key other than the two day-count metrics (`days_until_lease_end`,
`days_until_renewal_deadline`) is independent of the clock date.  (The
`today` used is `date.today()` read inside the function, not an injectable
parameter.) -/
theorem compute_layer2_pure_given_today (l1 : Layer1) (t t' : CalDate) :
    (compute_layer2 l1 t).effective_monthly_cost = (compute_layer2 l1 t').effective_monthly_cost ∧
    (compute_layer2 l1 t).total_upfront_cost = (compute_layer2 l1 t').total_upfront_cost ∧
    (compute_layer2 l1 t).annualized_rent = (compute_layer2 l1 t').annualized_rent ∧
    (compute_layer2 l1 t).rent_per_tenant = (compute_layer2 l1 t').rent_per_tenant ∧
    (compute_layer2 l1 t).deposit_per_tenant = (compute_layer2 l1 t').deposit_per_tenant ∧
    (compute_layer2 l1 t).upfront_per_tenant = (compute_layer2 l1 t').upfront_per_tenant ∧
    (compute_layer2 l1 t).lease_term_days = (compute_layer2 l1 t').lease_term_days ∧
    (compute_layer2 l1 t).lease_term_months = (compute_layer2 l1 t').lease_term_months ∧
    (compute_layer2 l1 t).total_liability_term = (compute_layer2 l1 t').total_liability_term ∧
    (compute_layer2 l1 t).renewal_deadline_date = (compute_layer2 l1 t').renewal_deadline_date ∧
    (compute_layer2 l1 t).implied_cost_per_sqft_monthly
      = (compute_layer2 l1 t').implied_cost_per_sqft_monthly ∧
    (compute_layer2 l1 t).deposit_as_months_rent = (compute_layer2 l1 t').deposit_as_months_rent ∧
    (compute_layer2 l1 t).late_fee_as_pct_rent = (compute_layer2 l1 t').late_fee_as_pct_rent ∧
    (compute_layer2 l1 t).late_fee_dollar_equivalent
      = (compute_layer2 l1 t').late_fee_dollar_equivalent ∧
    (compute_layer2 l1 t).holdover_rent_increase = (compute_layer2 l1 t').holdover_rent_increase ∧
    (compute_layer2 l1 t).holdover_rent_increase_pct
      = (compute_layer2 l1 t').holdover_rent_increase_pct :=
  ⟨rfl, rfl, rfl, rfl, rfl, rfl, rfl, rfl, rfl, rfl, rfl, rfl, rfl, rfl, rfl, rfl⟩

/-! ## Claim C4 -/

/-- The spec's term scenario: start 2025-06-08, end 2026-05-30, rent
3900.00. -/
def scenarioTermL1 : Layer1 :=
  { monthly_rent := some 3900
    lease_start_date := some ⟨2025, 6, 8⟩
    lease_end_date := some ⟨2026, 5, 30⟩ }

/-- Claim C4: on the scenario record, `compute_layer2` yields
`lease_term_days = 356`, `lease_term_months = 12` (the rounding of
`356 / 30.44` to the nearest integer) and `total_liability_term =
46800.00`. -/
theorem compute_layer2_term_scenario :
    (compute_layer2 scenarioTermL1 ⟨2025, 10, 12⟩).lease_term_days = some 356 ∧
    (compute_layer2 scenarioTermL1 ⟨2025, 10, 12⟩).lease_term_months = some 12 ∧
    (compute_layer2 scenarioTermL1 ⟨2025, 10, 12⟩).lease_term_months
      = some (pyRound ((356 : ℚ) / 30.44)) ∧
    (compute_layer2 scenarioTermL1 ⟨2025, 10, 12⟩).total_liability_term = some 46800 := by
  have hdays : CalDate.toDays ⟨2026, 5, 30⟩ - CalDate.toDays ⟨2025, 6, 8⟩ = 356 := by decide
  have hround : pyRound
      (((CalDate.toDays ⟨2026, 5, 30⟩ - CalDate.toDays ⟨2025, 6, 8⟩ : ℤ) : ℚ) / 30.44) = 12 := by
    rw [hdays]
    rw [show (12 : ℤ) = 11 + 1 by norm_num]
    apply pyRound_eq_next <;> norm_num
  have hround2 : pyRound ((356 : ℚ) / 30.44) = 12 := by
    rw [show (12 : ℤ) = 11 + 1 by norm_num]
    apply pyRound_eq_next <;> norm_num
  refine ⟨?_, ?_, ?_, ?_⟩
  · simp only [compute_layer2, scenarioTermL1]
    rw [hdays]
  · simp only [compute_layer2, scenarioTermL1]
    rw [hround]
  · simp only [compute_layer2, scenarioTermL1]
    rw [hround, hround2]
  · simp only [compute_layer2, scenarioTermL1]
    rw [hround]
    norm_num [pyOrQ]

/-! ## Claim C5 -/

/-- Claim C5: late-fee normalization follows the priority order of the
source (main.py lines 373-380): a (nonzero) fixed late-fee amount with
positive rent yields `late_fee_as_pct_rent = amount / rent`; otherwise a
(nonzero) late-fee percentage always yields `late_fee_as_pct_rent =
pct / 100`, and `late_fee_dollar_equivalent = rent * (pct / 100)` exactly
when the rent is positive.  (`rent` is the typed monthly rent defaulted to
`0` when null, as in the source's `l1.get("monthly_rent") or Decimal("0")`.) -/
theorem compute_layer2_late_fee_priority (l1 : Layer1) (today : CalDate) :
    (∀ a, l1.late_fee_initial_amount = some a → a ≠ 0 → 0 < pyOrQ l1.monthly_rent 0 →
      (compute_layer2 l1 today).late_fee_as_pct_rent = some (a / pyOrQ l1.monthly_rent 0)) ∧
    (∀ p, (truthyQ l1.late_fee_initial_amount = false ∨ ¬ 0 < pyOrQ l1.monthly_rent 0) →
      l1.late_fee_initial_pct = some p → p ≠ 0 →
      (compute_layer2 l1 today).late_fee_as_pct_rent = some (p / 100) ∧
      (0 < pyOrQ l1.monthly_rent 0 →
        (compute_layer2 l1 today).late_fee_dollar_equivalent
          = some (pyOrQ l1.monthly_rent 0 * (p / 100))) ∧
      (¬ 0 < pyOrQ l1.monthly_rent 0 →
        (compute_layer2 l1 today).late_fee_dollar_equivalent = none)) := by
  constructor
  · intro a ha hne hrent
    have ht : truthyQ l1.late_fee_initial_amount = true := by
      simp [truthyQ, ha, hne]
    simp only [compute_layer2]
    rw [if_pos ⟨ht, hrent⟩, ha]
    rfl
  · intro p hfirst hp hpne
    have htp : truthyQ l1.late_fee_initial_pct = true := by
      simp [truthyQ, hp, hpne]
    have hnot : ¬ (truthyQ l1.late_fee_initial_amount = true ∧ 0 < pyOrQ l1.monthly_rent 0) := by
      rcases hfirst with h | h
      · rintro ⟨h1, _⟩; rw [h] at h1; exact Bool.false_ne_true h1
      · rintro ⟨_, h2⟩; exact h h2
    refine ⟨?_, ?_, ?_⟩
    · simp only [compute_layer2]
      rw [if_neg hnot, if_pos htp, hp]
      rfl
    · intro hrent
      simp only [compute_layer2]
      rw [if_neg hnot, if_pos ⟨htp, hrent⟩, hp]
      rfl
    · intro hrent
      have hnot2 : ¬ (truthyQ l1.late_fee_initial_pct = true ∧ 0 < pyOrQ l1.monthly_rent 0) := by
        rintro ⟨_, h2⟩; exact hrent h2
      simp only [compute_layer2]
      rw [if_neg hnot, if_neg hnot2]

/-- The spec's late-fee scenario: rent 0, late-fee percentage 10. -/
def scenarioLateFeeL1 : Layer1 :=
  { monthly_rent := some 0
    late_fee_initial_pct := some 10 }

/-- Witness for claim C5's theorem, at the spec's own scenario: rent `0`,
`lateFeePct = 10` gives `late_fee_as_pct_rent = 0.10` and no
`late_fee_dollar_equivalent`. -/
theorem compute_layer2_late_fee_priority_witness :
    (compute_layer2 scenarioLateFeeL1 ⟨2025, 10, 12⟩).late_fee_as_pct_rent = some (1/10) ∧
    (compute_layer2 scenarioLateFeeL1 ⟨2025, 10, 12⟩).late_fee_dollar_equivalent = none := by
  have h := (compute_layer2_late_fee_priority scenarioLateFeeL1 ⟨2025, 10, 12⟩).2 10
    (Or.inl (by decide)) rfl (by decide)
  refine ⟨?_, h.2.2 (by decide)⟩
  rw [h.1]
  norm_num

/-! ## Claim C6 -/

/-- Claim C6: a conditional derived metric whose precondition fails is
absent (`none`), never zero: `rent_per_tenant` is absent whenever
`number_of_tenants = 1`, and `implied_cost_per_sqft_monthly` is absent
whenever the square footage is null or `≤ 0`. -/
theorem compute_layer2_conditional_metrics_absent (l1 : Layer1) (today : CalDate) :
    (l1.number_of_tenants = some 1 → (compute_layer2 l1 today).rent_per_tenant = none) ∧
    ((∀ q, l1.square_footage = some q → q ≤ 0) →
      (compute_layer2 l1 today).implied_cost_per_sqft_monthly = none) := by
  constructor
  · intro h
    simp only [compute_layer2]
    rw [if_neg]
    rintro ⟨h1, _⟩
    rw [h] at h1
    simp [pyOrZ] at h1
  · intro h
    simp only [compute_layer2]
    cases hsq : l1.square_footage with
    | none => rfl
    | some q =>
      have hq := h q hsq
      have hno : ¬ (q ≠ 0 ∧ 0 < q ∧
          0 < pyOrQ l1.monthly_rent 0 + pyOrQ l1.other_fees_monthly 0) := by
        rintro ⟨_, h2, _⟩
        exact absurd h2 (not_lt.mpr hq)
      exact if_neg hno

/-- A record with one tenant and a negative recorded square footage. -/
def oneTenantL1 : Layer1 :=
  { monthly_rent := some 1000
    number_of_tenants := some 1
    square_footage := some (-5) }

/-- Witness for claim C6's theorem at a concrete record. -/
theorem compute_layer2_conditional_metrics_absent_witness :
    (compute_layer2 oneTenantL1 ⟨2025, 10, 12⟩).rent_per_tenant = none ∧
    (compute_layer2 oneTenantL1 ⟨2025, 10, 12⟩).implied_cost_per_sqft_monthly = none := by
  have h := compute_layer2_conditional_metrics_absent oneTenantL1 ⟨2025, 10, 12⟩
  refine ⟨h.1 rfl, h.2 ?_⟩
  intro q hq
  have hq5 : q = -5 := by
    have h5 : (some (-5) : Option ℚ) = some q := hq
    injection h5 with h6
    exact h6.symm
  rw [hq5]
  norm_num

/-! ## Claim C2 -/

/-- Claim C2, counterexample: `parse_field` is not total.  On a field dict
whose `confidence` entry is a non-numeric string, the unguarded
`float(raw_field.get("confidence", 0.0))` (main.py line 224) raises
`ValueError` — modelled as the `none` result — instead of returning. -/
theorem parse_field_raises_on_bad_confidence :
    parse_field (.dict [("value", .int 1), ("confidence", .str "high")]) .int = Option.none := by
  rfl

/-- Claim C2, amended: `parse_field` is total on every raw field whose
`confidence` entry (when the field is a dict) is absent or convertible by
`float()`; on that domain no coercion raises, and a failed scalar coercion
degrades to a null value with the original confidence and flag retained.
(A dict with a `float()`-inconvertible `confidence` entry raises.) -/
theorem parse_field_total_given_numeric_confidence
    (entries : List (String × PyVal)) (t : FieldType) (c : ℚ)
    (hc : pyFloat ((List.lookup "confidence" entries).getD (PyVal.float 0)) = some c) :
    (parse_field (.dict entries) t).isSome = true ∧
    (∀ v, List.lookup "value" entries = some v → v.isNone = false →
      coerceValue t v = PyVal.none →
      parse_field (.dict entries) t =
        some (PyVal.none, c,
          pyTruthy ((List.lookup "flag_for_reasoning" entries).getD (PyVal.bool false)))) := by
  constructor
  · simp only [parse_field, hc]
    cases ((List.lookup "value" entries).getD PyVal.none).isNone <;> simp
  · intro v hv hvn hcoerce
    simp only [parse_field, hc, hv, Option.getD_some, hvn]
    rw [if_neg (by simp [hvn]), hcoerce]

/-- Witness for claim C2's amended theorem: an un-coercible value with a
well-formed confidence degrades to `(null, 0.9, flag)`. -/
theorem parse_field_total_given_numeric_confidence_witness :
    parse_field
      (.dict [("value", .str "abc"), ("confidence", .float (9/10)),
              ("flag_for_reasoning", .bool true)]) .int
      = some (PyVal.none, 9/10, true) := by
  have h := parse_field_total_given_numeric_confidence
    [("value", .str "abc"), ("confidence", .float (9/10)), ("flag_for_reasoning", .bool true)]
    .int (9/10) rfl
  exact h.2 (.str "abc") rfl rfl rfl

/-! ## Claim C7 -/

/-- Claim C7: a raw field dict whose `value` entry is null coerces, for every
declared field type, to `(null, confidence, flag)` with the confidence and
flag taken unchanged from the input (which carries, per the `RawFieldValue`
shape, a numeric confidence and a boolean flag); no type coercion is
attempted on the null. -/
theorem parse_field_null_value_passthrough
    (entries : List (String × PyVal)) (t : FieldType) (c : ℚ) (b : Bool)
    (hv : List.lookup "value" entries = some PyVal.none)
    (hc : List.lookup "confidence" entries = some (PyVal.float c))
    (hf : List.lookup "flag_for_reasoning" entries = some (PyVal.bool b)) :
    parse_field (.dict entries) t = some (PyVal.none, c, b) := by
  simp only [parse_field, hv, hc, hf, Option.getD_some, pyFloat, pyTruthy, PyVal.isNone]
  rfl

/-- Witness for claim C7's theorem: a null value with confidence `0.3` and a
set flag passes both through for the `decimal` type. -/
theorem parse_field_null_value_passthrough_witness :
    parse_field
      (.dict [("value", .none), ("confidence", .float (3/10)),
              ("flag_for_reasoning", .bool true)]) .decimal
      = some (PyVal.none, 3/10, true) :=
  parse_field_null_value_passthrough _ .decimal (3/10) true rfl rfl rfl

/-! ## Claim C8 -/

/-- Claim C8, counterexample: a bare (non-dict) raw field is *not* coerced to
the declared field type.  The bare string `"5"` under declared type `int`
comes back as the string `"5"` (with defaults `0.5`/`false`), while the same
scalar wrapped in `{value: "5", confidence: 0.5, flag: false}` coerces to the
integer `5`: the two results differ. -/
theorem parse_field_bare_scalar_not_coerced :
    parse_field (.str "5") .int = some (.str "5", 1/2, false) ∧
    parse_field
      (.dict [("value", .str "5"), ("confidence", .float (1/2)),
              ("flag_for_reasoning", .bool false)]) .int
      = some (.int 5, 1/2, false) ∧
    parse_field (.str "5") .int ≠
      parse_field
        (.dict [("value", .str "5"), ("confidence", .float (1/2)),
                ("flag_for_reasoning", .bool false)]) .int := by
  refine ⟨rfl, by rfl, ?_⟩
  intro h
  have h' : (some ((PyVal.str "5"), (1 : ℚ)/2, false) : Option (PyVal × ℚ × Bool))
      = some ((PyVal.int 5), (1 : ℚ)/2, false) := h
  injection h' with h1
  injection h1 with h2 h3
  exact PyVal.noConfusion h2

/-- Claim C8, amended: a bare (non-dict) raw field is passed through
unconverted — `parse_field` returns `(raw, 0.5, false)` for every declared
field type, with no coercion of the scalar. -/
theorem parse_field_bare_scalar_passthrough (raw : PyVal) (t : FieldType)
    (h : ∀ entries, raw ≠ PyVal.dict entries) :
    parse_field raw t = some (raw, 1/2, false) := by
  cases raw <;> first | rfl | exact absurd rfl (h _)

/-- Witness for claim C8's amended theorem. -/
theorem parse_field_bare_scalar_passthrough_witness :
    parse_field (.str "hello") .decimal = some (.str "hello", 1/2, false) :=
  parse_field_bare_scalar_passthrough (.str "hello") .decimal
    (fun _ heq => PyVal.noConfusion heq)

/-! ## Gate counting helpers -/

lemma check_missing_singleton (l1 : Layer1)
    (h : CRITICAL_FIELDS.filter (fun f => !(criticalTruthy l1 f)) ≠ []) :
    check_missing_reasons l1 =
      ["Missing critical fields: " ++
        String.intercalate ", " (CRITICAL_FIELDS.filter (fun f => !(criticalTruthy l1 f)))] := by
  unfold check_missing_reasons
  rw [if_neg]
  simpa using h

lemma countP_missing_in_low (conf : List (String × ℚ)) :
    List.countP isMissingReason (check_low_conf_reasons conf) = 0 := by
  simp only [check_low_conf_reasons]
  repeat' split
  all_goals simp [List.countP_cons, isMissingReason_low]

lemma countP_missing_in_rent (l1 : Layer1) :
    List.countP isMissingReason (check_rent_reasons l1) = 0 := by
  simp only [check_rent_reasons]
  repeat' split
  all_goals simp [List.countP_cons, isMissingReason_unusual]

lemma countP_unusual_in_low (conf : List (String × ℚ)) :
    List.countP isUnusualRentReason (check_low_conf_reasons conf) = 0 := by
  simp only [check_low_conf_reasons]
  repeat' split
  all_goals simp [List.countP_cons, isUnusualRentReason_low]

/-! ## Claim C3 -/

/-- Claim C3: the quality gate evaluates its three checks independently and
without short-circuiting — its reason list is always the concatenation, in
fixed check order, of the three checks' reason lists — and on every input
whose property address is null while the other three critical fields are
present with confidence 0.95, it requires review with exactly one
missing-critical-fields reason. -/
theorem run_quality_gate_checks_independent (l1 : Layer1) (conf : List (String × ℚ))
    (flags : List String) :
    ((run_quality_gate l1 conf flags).2 =
      check_missing_reasons l1 ++ check_low_conf_reasons conf ++ check_rent_reasons l1) ∧
    (l1.property_address = none →
      ∀ r s e, l1.monthly_rent = some r → l1.lease_start_date = some s →
        l1.lease_end_date = some e →
        (∀ fv ∈ conf, fv.1 ∈ CRITICAL_FIELDS → fv.1 ≠ "property_address" → fv.2 = 95/100) →
        (run_quality_gate l1 conf flags).1 = true ∧
        ((run_quality_gate l1 conf flags).2.countP isMissingReason) = 1) := by
  refine ⟨gate_reasons_eq l1 conf flags, ?_⟩
  intro haddr r s e hr hs he hconf
  have haddrT : criticalTruthy l1 "property_address" = false := by
    simp [criticalTruthy, haddr]
  have hmem : "property_address" ∈ CRITICAL_FIELDS.filter (fun f => !(criticalTruthy l1 f)) :=
    List.mem_filter.mpr ⟨by simp [CRITICAL_FIELDS], by simp [haddrT]⟩
  have hne := List.ne_nil_of_mem hmem
  have hm := check_missing_singleton l1 hne
  constructor
  · rw [gate_review_eq, hm]
    simp
  · rw [gate_reasons_eq, List.countP_append, List.countP_append, hm,
      countP_missing_in_low, countP_missing_in_rent]
    simp [List.countP_cons, isMissingReason_missing]

/-- The C3 scenario record: address null, the other critical fields
present. -/
def gateScenarioL1 : Layer1 :=
  { monthly_rent := some 1500
    lease_start_date := some ⟨2025, 6, 8⟩
    lease_end_date := some ⟨2026, 5, 30⟩ }

/-- The C3 scenario confidences: 0.95 on the present critical fields. -/
def gateScenarioConf : List (String × ℚ) :=
  [("monthly_rent", 95/100), ("lease_start_date", 95/100),
   ("lease_end_date", 95/100), ("property_address", 0)]

/-- Witness for claim C3's theorem at the scenario input. -/
theorem run_quality_gate_checks_independent_witness :
    (run_quality_gate gateScenarioL1 gateScenarioConf []).1 = true ∧
    ((run_quality_gate gateScenarioL1 gateScenarioConf []).2.countP isMissingReason) = 1 := by
  apply (run_quality_gate_checks_independent gateScenarioL1 gateScenarioConf []).2
    rfl 1500 ⟨2025, 6, 8⟩ ⟨2026, 5, 30⟩ rfl rfl rfl
  intro fv hfv hcrit hne
  simp only [gateScenarioConf, List.mem_cons, List.not_mem_nil, or_false] at hfv
  rcases hfv with h | h | h | h
  · subst h; rfl
  · subst h; rfl
  · subst h; rfl
  · subst h; exact absurd rfl hne

/-! ## Claim C9 -/

/-- Claim C9: the gate requires review exactly when it gives at least one
reason. -/
theorem run_quality_gate_review_iff_reasons (l1 : Layer1) (conf : List (String × ℚ))
    (flags : List String) :
    (run_quality_gate l1 conf flags).1 = true ↔ (run_quality_gate l1 conf flags).2 ≠ [] := by
  rw [gate_review_eq, gate_reasons_eq]
  simp

/-! ## Claim C10 -/

/-- Claim C10: a present-but-zero monthly rent is treated as missing — it is
listed among the missing critical fields, whose reason the gate emits — and
the implausible-rent check does not fire on it (its reason count is zero),
despite `0 < 50`. -/
theorem run_quality_gate_zero_rent_missing_not_unusual (l1 : Layer1)
    (conf : List (String × ℚ)) (flags : List String)
    (h : l1.monthly_rent = some 0) :
    "monthly_rent" ∈ CRITICAL_FIELDS.filter (fun f => !(criticalTruthy l1 f)) ∧
    ("Missing critical fields: " ++ String.intercalate ", "
        (CRITICAL_FIELDS.filter (fun f => !(criticalTruthy l1 f))))
      ∈ (run_quality_gate l1 conf flags).2 ∧
    (run_quality_gate l1 conf flags).2.countP isUnusualRentReason = 0 := by
  have hT : criticalTruthy l1 "monthly_rent" = false := by
    simp [criticalTruthy, truthyQ, h]
  have hmem : "monthly_rent" ∈ CRITICAL_FIELDS.filter (fun f => !(criticalTruthy l1 f)) :=
    List.mem_filter.mpr ⟨by simp [CRITICAL_FIELDS], by simp [hT]⟩
  have hne := List.ne_nil_of_mem hmem
  have hm := check_missing_singleton l1 hne
  refine ⟨hmem, ?_, ?_⟩
  · rw [gate_reasons_eq, hm]
    simp
  · have hrent0 : check_rent_reasons l1 = [] := by
      simp [check_rent_reasons, h]
    rw [gate_reasons_eq, List.countP_append, List.countP_append, hm, hrent0,
      countP_unusual_in_low]
    simp [List.countP_cons, isUnusualRentReason_missing]

/-- A record whose typed monthly rent is present but zero. -/
def zeroRentL1 : Layer1 := { monthly_rent := some 0 }

/-- Witness for claim C10's theorem at a concrete record. -/
theorem run_quality_gate_zero_rent_missing_not_unusual_witness :
    "monthly_rent" ∈ CRITICAL_FIELDS.filter (fun f => !(criticalTruthy zeroRentL1 f)) ∧
    ("Missing critical fields: " ++ String.intercalate ", "
        (CRITICAL_FIELDS.filter (fun f => !(criticalTruthy zeroRentL1 f))))
      ∈ (run_quality_gate zeroRentL1 [] []).2 ∧
    (run_quality_gate zeroRentL1 [] []).2.countP isUnusualRentReason = 0 :=
  run_quality_gate_zero_rent_missing_not_unusual zeroRentL1 [] [] rfl

end LeaseIntel
